import Mathlib

/-!
Verification of the PCC (pedal cruise control) longitudinal controller
(`selfdrive/car/tesla/PCC_module.py`) against its natural-language
specification.  Python floats are modelled as exact rationals (`ℚ`),
machine integers as `ℤ`/`ℕ`.  Fallible code (a possible
`ZeroDivisionError`) is modelled with `Option`.
-/

/-- Modelled from the spec: metric conversion constants
(`selfdrive.config.Conversions`, not under `src/`).  1 mph = 1.609344 kph,
1 m/s = 3.6 kph. -/
def mphToKph : ℚ := 1609344 / 1000000

/-- Modelled from the spec: metres/second to km/hour. -/
def msToKph : ℚ := 18 / 5

/-- Modelled from the spec: km/hour to metres/second. -/
def kphToMs : ℚ := 5 / 18

/-- Modelled from the spec: miles/hour to metres/second. -/
def mphToMs : ℚ := mphToKph * kphToMs

/-- Modelled from the spec: `common.numpy_fast.clip` (not under `src/`):
clamp `x` into `[lo, hi]`. -/
def clip (x lo hi : ℚ) : ℚ := min (max x lo) hi

/-- Modelled from the spec (§4.1 Curve Interpolator):
`common.numpy_fast.interp` (not under `src/`) over an ordered breakpoint
table with strictly increasing keys: clamped piecewise-linear
interpolation.  The source always calls it through `_interp_map`, whose
`OrderedDict` argument we embed as a list of `(key, value)` pairs. -/
def interp (x : ℚ) : List (ℚ × ℚ) → ℚ
  | [] => 0
  | [(_, y)] => y
  | (x0, y0) :: (x1, y1) :: rest =>
    if x ≤ x0 then y0
    else if x ≤ x1 then y0 + (x - x0) * (y1 - y0) / (x1 - x0)
    else interp x ((x1, y1) :: rest)

/-- Python `int(...)` on a float: truncation toward zero. -/
def pyInt (q : ℚ) : ℤ := if 0 ≤ q then ⌊q⌋ else -⌊-q⌋

/-- `radarState.leadOne` sample: the fields of the lead-vehicle estimate
read by the module. -/
structure Lead where
  dRel : ℚ
  vRel : ℚ
  aRel : ℚ
  vLeadK : ℚ
  aLeadK : ℚ
  status : Bool
deriving DecidableEq

/-- Modelled from the spec: the stalk/button codes
(`CruiseButtons` in `selfdrive/car/tesla/values.py`, not under `src/`):
idle / main / cancel / resume / resume-2nd / decel / decel-2nd. -/
inductive CruiseBtn where
  | idle
  | main
  | cancel
  | resAccel
  | resAccel2
  | decelSet
  | decel2
deriving DecidableEq

/-- Modelled from the spec: `CruiseState.is_off`
(`selfdrive/car/tesla/values.py`, not under `src/`): the standard cruise
system reports off exactly when its status code is 0 (the module itself
reads truthiness of `pcm_acc_status` the same way at line 331). -/
def cruiseIsOff (pcm : ℤ) : Bool := pcm == 0

/-- The fields of the car-state object `CS` read by the module. -/
structure CarState where
  brake_pressed : Bool
  cruise_buttons : CruiseBtn
  imperial_speed_units : Bool
  pcm_acc_status : ℤ
  forcePedalOverCC : Bool
  /-- `CS.cstm_btns.get_button_status("pedal")`. -/
  buttonStatus : ℤ
  pedal_interceptor_state : ℤ
  pedal_idx : ℤ
  prev_pedal_idx : ℤ
  v_ego : ℚ
  torqueLevel : ℚ
  apFollowTimeInS : ℚ
  useTeslaRadar : Bool
  angle_steers : ℚ
  turn_signal_blinking : Bool
deriving DecidableEq

/-- Persistent controller state: the `PCCController` instance fields
that the embedded operations read or write. -/
structure PCC where
  pcc_available : Bool
  prev_pcc_available : Bool
  pedal_timeout_frame : ℕ
  enable_pedal_cruise : Bool
  stalk_pull_time_ms : ℤ
  prev_stalk_pull_time_ms : ℤ
  prev_pcm_acc_status : ℤ
  prev_cruise_buttons : CruiseBtn
  pedal_speed_kph : ℚ
  speed_limit_kph : ℚ
  prev_speed_limit_kph : ℚ
  pedal_idx : ℕ
  pedal_steady : ℚ
  prev_tesla_accel : ℚ
  prev_tesla_pedal : ℚ
  torqueLevel_last : ℚ
  prev_v_ego : ℚ
  PedalForZeroTorque : ℚ
  lastTorqueForPedalForZeroTorque : ℚ
  v_pid : ℚ
  last_output_gb : ℚ
  last_speed_kph : Option ℚ
  lead_1 : Option Lead
  lead_last_seen_time_ms : ℤ
  continuous_lead_sightings : ℕ
deriving DecidableEq

/-- `_is_present` (PCC_module.py lines 825-826): a lead is present iff the
sample exists and its relative distance is strictly positive. -/
def is_present (lead : Option Lead) : Bool :=
  match lead with
  | none => false
  | some l => decide (0 < l.dRel)

/-- `_visual_radar_adjusted_dist_m` (lines 780-790): rescale visual-radar
distances so that 7 m maps to 0 m, maxing out at 1 km. -/
def visual_radar_adjusted_dist_m (m : ℚ) : ℚ :=
  interp m [(7, 0), (1000, 1000)]

/-- `_safe_distance_m` (lines 793-794). -/
def safe_distance_m (v_ego_ms : ℚ) (cs : CarState) : ℚ :=
  max (cs.apFollowTimeInS * (v_ego_ms + 1)) 6

/-- `_max_safe_speed_kph` (lines 797-805).  The division by
`apFollowTimeInS` uses Lean's total rational division. -/
def max_safe_speed_kph (lead : Option Lead) (cs : CarState) : ℚ :=
  match lead with
  | some l =>
    if 0 < l.dRel then
      (cs.v_ego + l.vRel + (l.dRel - safe_distance_m cs.v_ego cs) / cs.apFollowTimeInS)
        * msToKph
    else 270
  | none => 270

/-- `_min_safe_vrel_kph` (lines 808-822). -/
def min_safe_vrel_kph (lead : Lead) (cs : CarState) (actual_speed_kph : ℚ) : ℚ :=
  if actual_speed_kph < lead.vLeadK * msToKph then -100
  else interp lead.dRel [(6, 2), (100, -25), (1000, -50)]

/-- `_sec_til_collision` (lines 829-843).  Note the source's
`min(0.1, ...)` on the Tesla-radar branch is embedded exactly as written.
The divisor `|vRel + min 0 aRel * apFollowTimeInS|` is nonzero whenever
`vRel < 0` and `apFollowTimeInS ≥ 0`; Lean's rational division is total. -/
def sec_til_collision (lead : Option Lead) (cs : CarState) : ℚ :=
  match lead with
  | some l =>
    if 0 < l.dRel ∧ l.vRel < 0 then
      if cs.useTeslaRadar then
        min (1/10) (-4 + l.dRel / |l.vRel + min 0 l.aRel * cs.apFollowTimeInS|)
      else
        visual_radar_adjusted_dist_m l.dRel / |l.vRel + min 0 l.aRel * cs.apFollowTimeInS|
    else 60
  | none => 60

/-- `_decel_limit` (lines 904-962).  The `if _is_present(lead)` guard is
embedded by matching the optional lead and testing `0 < dRel`. -/
def decel_limit (accel_min v_ego : ℚ) (lead : Option Lead) (cs : CarState)
    (max_speed_kph : ℚ) : ℚ :=
  let max_speed_mult : ℚ :=
    if max_speed_kph < v_ego * msToKph then
      let overshot := v_ego * msToKph - max_speed_kph
      if 5 ≤ overshot then 2 else if 2 ≤ overshot then 3/2 else 1
    else 1
  let safe_dist_m := safe_distance_m v_ego cs
  match lead with
  | some l =>
    if 0 < l.dRel then
      let time_to_brake := max (1/10) (sec_til_collision (some l) cs)
      if 0 < l.dRel ∧ l.dRel < 6 then -100
      else if v_ego / 10 ≤ l.vRel ∧ l.aRel < 1/2 ∧ l.dRel ≤ 11/10 * safe_dist_m then
        -2 + l.aRel
      else if l.vRel ≤ v_ego / 10 ∧ l.aLeadK < 1/2 ∧ l.dRel ≤ 11/10 * safe_dist_m then
        -2 + l.aRel + min (3 * l.vRel / time_to_brake) (-7/10)
      else if l.vRel < -(v_ego / 10) ∧ l.dRel ≤ 11/10 * safe_dist_m then
        -3 + 2 * l.vRel / time_to_brake
      else
        accel_min * max_speed_mult
          * interp (sec_til_collision (some l) cs) [(0, 10), (4, 1), (7, 1/2), (10, 3/10)]
          * interp v_ego [(0, 10), (4, 5), (7, 5/2), (10, 1)]
    else accel_min * (1/2) * max_speed_mult
  | none => accel_min * (1/2) * max_speed_mult

/-- `_brake_pedal_min` (lines 965-997).  The Python division
`100 * (v_ego - v_target) / v_ego` raises `ZeroDivisionError` when
`v_ego = 0`; that error branch is modelled as `none`. -/
def brake_pedal_min (v_ego v_target : ℚ) (lead : Option Lead) (cs : CarState)
    (max_speed_kph : ℚ) : Option ℚ :=
  if v_ego ≤ 7 * mphToMs then some (-1)
  else if max_speed_kph < v_ego * msToKph then some (-4/5)
  else if v_ego = 0 then none
  else
    let speed_delta_perc := 100 * (v_ego - v_target) / v_ego
    let brake_mult1 :=
      interp speed_delta_perc [(0, 3/10), (3/2, 1/2), (5, 4/5), (7, 1), (50, 1)]
    let brake_mult2 : ℚ :=
      match lead with
      | some l =>
        if 0 < l.dRel then
          let safe_dist_m := safe_distance_m cs.v_ego cs
          interp l.dRel
            [(4/5 * safe_dist_m, 1), (1 * safe_dist_m, 3/5), (3 * safe_dist_m, 2/5)]
        else 0
      | none => 0
    some (-(max brake_mult1 brake_mult2))

/-- `PCCController._update_pedal_state` (lines 764-777): actuator
freshness tracking and the availability predicate. -/
def updatePedalState (s : PCC) (cs : CarState) (frame : ℕ) : PCC :=
  let s :=
    if cs.pedal_idx ≠ cs.prev_pedal_idx then
      { s with pedal_timeout_frame := frame + 50 }
    else s
  let s := { s with prev_pcc_available := s.pcc_available }
  let pedal_ready :=
    decide (frame < s.pedal_timeout_frame) && (cs.pedal_interceptor_state == 0)
  let acc_disabled := cs.forcePedalOverCC || cruiseIsOff cs.pcm_acc_status
  { s with pcc_available := pedal_ready && acc_disabled }

/-- Lines 261-341 of `update_stat`: the brake-pressed disable (a
standalone `if`) followed by the stalk/button `if`/`elif` chain.  UI
alerts, button-status writes and the PID save (side channels) are not
modelled. -/
def stalkAndButtons (s : PCC) (cs : CarState) (now : ℤ) : PCC :=
  let s :=
    if cs.brake_pressed ∧ s.enable_pedal_cruise then
      { s with enable_pedal_cruise := false }
    else s
  let speed_uom_kph : ℚ := if cs.imperial_speed_units then mphToKph else 1
  if cs.cruise_buttons = CruiseBtn.main ∧ s.prev_cruise_buttons ≠ CruiseBtn.main then
    let prevPull := s.stalk_pull_time_ms
    let s := { s with prev_stalk_pull_time_ms := prevPull, stalk_pull_time_ms := now }
    let double_pull := now - prevPull < 750
    let ready :=
      (0 < cs.buttonStatus ∧ cruiseIsOff cs.pcm_acc_status = true) ∨
        cs.forcePedalOverCC = true
    if ready ∧ double_pull then
      { s with enable_pedal_cruise := true,
               pedal_speed_kph :=
                 max ((pyInt (cs.v_ego * msToKph / speed_uom_kph + 1/2) : ℚ)
                        * speed_uom_kph)
                   s.speed_limit_kph }
    else s
  else if cs.cruise_buttons = CruiseBtn.cancel then
    { s with enable_pedal_cruise := false, pedal_speed_kph := 0,
             stalk_pull_time_ms := 0, prev_stalk_pull_time_ms := -1000 }
  else if s.enable_pedal_cruise ∧ cs.cruise_buttons ≠ s.prev_cruise_buttons then
    let actual_rounded :=
      (pyInt (cs.v_ego * msToKph / speed_uom_kph + 1/2) : ℚ) * speed_uom_kph
    let sp :=
      match cs.cruise_buttons with
      | CruiseBtn.resAccel => max s.pedal_speed_kph actual_rounded + speed_uom_kph
      | CruiseBtn.resAccel2 => max s.pedal_speed_kph actual_rounded + 5 * speed_uom_kph
      | CruiseBtn.decelSet => s.pedal_speed_kph - speed_uom_kph
      | CruiseBtn.decel2 => s.pedal_speed_kph - 5 * speed_uom_kph
      | _ => s.pedal_speed_kph
    { s with pedal_speed_kph := clip sp 0 270 }
  else if s.enable_pedal_cruise ∧ cs.pcm_acc_status ≠ 0 ∧ cs.forcePedalOverCC = false then
    { s with enable_pedal_cruise := false }
  else if s.enable_pedal_cruise ∧ 750 < now - s.stalk_pull_time_ms ∧
      750 < s.stalk_pull_time_ms - s.prev_stalk_pull_time_ms then
    { s with enable_pedal_cruise := false }
  else s

/-- `PCCController.update_stat` (lines 224-368).  The CAN reset messages
and UI side effects are not modelled; when unavailable, only the pedal
index advance (every 50th frame while timed out or faulted) is kept. -/
def update_stat (s : PCC) (cs : CarState) (frame : ℕ) (now : ℤ) : PCC :=
  let s1 := updatePedalState s cs frame
  if s1.pcc_available = false then
    if (s1.pedal_timeout_frame ≤ frame ∨ 0 < cs.pedal_interceptor_state) ∧
        frame % 50 = 0 then
      { s1 with pedal_idx := (s1.pedal_idx + 1) % 16 }
    else s1
  else
    let s2 := stalkAndButtons s1 cs now
    { s2 with prev_cruise_buttons := cs.cruise_buttons,
              prev_pcm_acc_status := cs.pcm_acc_status }

/-- Lines 642-736 of `calc_follow_speed_ms`: the lead-distance branch
chain run while PCC is enabled.  Returns the candidate speed together
with the (possibly reassigned, line 651) `rel_speed_kph`. -/
def follow_core (pedal_speed_kph : ℚ) (lead : Lead) (cs : CarState)
    (lead_dist_m actual_speed_kph rel_speed_kph safe_dist_m last_speed_kph : ℚ) :
    ℚ × ℚ :=
  if lead_dist_m = 0 ∨ 120 < lead_dist_m then (pedal_speed_kph, rel_speed_kph)
  else if 0 < lead_dist_m then
    let lead_absolute_speed_kph := actual_speed_kph + rel_speed_kph
    let rel := lead_absolute_speed_kph - actual_speed_kph
    if lead_dist_m < 6 ∧ 3 ≤ rel then (actual_speed_kph, rel)
    else if lead_dist_m < 6 then (0, rel)
    else if lead_dist_m < safe_dist_m + 2 ∧ 6 < lead_dist_m then
      let min_vrel_kph :=
        interp lead_dist_m
          [(1/2 * safe_dist_m, 3), (4/5 * safe_dist_m, 2), (1 * safe_dist_m, 0)]
      (lead_absolute_speed_kph - min_vrel_kph, rel)
    else
      let v_kph := cs.v_ego * msToKph
      let min_vrel_kph :=
        interp lead_dist_m
          [(1/2 * safe_dist_m, 3), (1 * safe_dist_m, -1 - 1/40 * v_kph),
           (3/2 * safe_dist_m, -5 - 1/20 * v_kph), (3 * safe_dist_m, -10 - 1/10 * v_kph)]
      let max_vrel_kph :=
        interp lead_dist_m
          [(1/2 * safe_dist_m, 6), (1 * safe_dist_m, 2), (3/2 * safe_dist_m, -3),
           (3 * safe_dist_m, -7)]
      let min_kph := lead_absolute_speed_kph - max_vrel_kph
      let max_kph := lead_absolute_speed_kph - min_vrel_kph
      let n1 :=
        if 4/5 * safe_dist_m ≤ lead_dist_m ∧
            actual_speed_kph < lead_absolute_speed_kph ∧ 0 ≤ lead.aLeadK then
          lead_absolute_speed_kph
        else last_speed_kph
      let n2 := clip n1 min_kph max_kph
      let n3 :=
        if n2 < actual_speed_kph ∧ min_kph < actual_speed_kph ∧
            actual_speed_kph < max_kph ∧ 30 < lead_absolute_speed_kph then
          actual_speed_kph
        else n2
      let n4 :=
        min n3
          (min (max_safe_speed_kph (some lead) cs)
            (max (lead_absolute_speed_kph - min_safe_vrel_kph lead cs actual_speed_kph)
              2))
      (n4, rel)
  else (last_speed_kph, rel_speed_kph)

/-- `PCCController.calc_follow_speed_ms` (lines 621-751).  Returns `none`
when no lead sample has ever been received, otherwise the updated state
(the `last_speed_kph` write) and the returned speed in m/s. -/
def calc_follow_speed_ms (s : PCC) (cs : CarState) (alca_enabled : Bool) :
    Option (PCC × ℚ) :=
  match s.lead_1 with
  | none => none
  | some lead =>
    let lead_dist_m :=
      if cs.useTeslaRadar then lead.dRel else visual_radar_adjusted_dist_m lead.dRel
    let v_rel := if 1/2 < |lead.vRel| then lead.vRel else 0
    let a_rel := if 1/2 < |lead.aRel| then lead.aRel else 0
    let rel_speed_kph := (v_rel + 0 * cs.apFollowTimeInS * a_rel) * msToKph
    let safe_dist_m := safe_distance_m cs.v_ego cs
    let actual_speed_kph := cs.v_ego * msToKph
    let last := s.last_speed_kph.getD actual_speed_kph
    let nr :=
      if s.enable_pedal_cruise then
        follow_core s.pedal_speed_kph lead cs lead_dist_m actual_speed_kph
          rel_speed_kph safe_dist_m last
      else (last, rel_speed_kph)
    let n5 := clip nr.1 0 270
    let n6 := clip n5 0 s.pedal_speed_kph
    let n7 :=
      if cs.turn_signal_blinking = true ∨ 10 < |cs.angle_steers| ∨ alca_enabled = true
      then min n6 last
      else n6
    let n8 := if lead_dist_m < 6 ∧ 0 < lead_dist_m ∧ nr.2 < 3 then 0 else n7
    some ({ s with last_speed_kph := some n8 }, n8 * kphToMs)

/-- `PCCController.pedal_hysteresis` (lines 753-762): returns the updated
state together with the returned steady value. -/
def pedal_hysteresis (s : PCC) (pedal : ℚ) (enabled : Bool) : PCC × ℚ :=
  if enabled = false then ({ s with pedal_steady := 0 }, 0)
  else if s.pedal_steady + 1 < pedal then
    ({ s with pedal_steady := pedal - 1 }, pedal - 1)
  else if pedal < s.pedal_steady - 1 then
    ({ s with pedal_steady := pedal + 1 }, pedal + 1)
  else (s, s.pedal_steady)

/-- The inputs `update_pdl` consumes each cycle.  `radSt` is the latest
`radarState.leadOne` message (or `none`), `now` the current wall-clock
milliseconds. -/
structure PdlIn where
  enabled : Bool
  cs : CarState
  frame : ℕ
  actuators_gas : ℚ
  actuators_brake : ℚ
  pcm_speed : ℚ
  pcm_override : Bool
  speed_limit_ms : ℚ
  set_speed_limit_active : Bool
  speed_limit_offset : ℚ
  alca_enabled : Bool
  radSt : Option Lead
  now : ℤ
deriving DecidableEq

/-- Lines 383-413 of `update_pdl`: zero-torque self-calibration, the
speed-limit bookkeeping, and the rolling pedal-index increment — all of
which run before the availability early-return. -/
def pdl_precycle (s : PCC) (i : PdlIn) : PCC :=
  let s := { s with prev_speed_limit_kph := s.speed_limit_kph }
  let s :=
    if i.cs.torqueLevel < 0 ∧ -30 < i.cs.torqueLevel ∧ 10 * mphToMs ≤ i.cs.v_ego ∧
        |i.cs.torqueLevel| < |s.lastTorqueForPedalForZeroTorque| ∧
        0 < s.prev_tesla_accel then
      { s with PedalForZeroTorque := s.prev_tesla_accel,
               lastTorqueForPedalForZeroTorque := i.cs.torqueLevel }
    else s
  let s :=
    if i.set_speed_limit_active = true ∧ 0 < i.speed_limit_ms then
      let sl := (i.speed_limit_ms + i.speed_limit_offset) * msToKph
      if pyInt s.prev_speed_limit_kph ≠ pyInt sl then
        { s with speed_limit_kph := sl, pedal_speed_kph := sl }
      else { s with speed_limit_kph := sl }
    else { s with speed_limit_kph := 0 }
  { s with pedal_idx := (s.pedal_idx + 1) % 16 }

/-- Lines 420-428 of `update_pdl`: ingest the latest radar sample into
`lead_1` and the sighting-streak bookkeeping. -/
def ingest_radar (s : PCC) (i : PdlIn) : PCC :=
  match i.radSt with
  | none => s
  | some l =>
    let s := { s with lead_1 := some l }
    if is_present s.lead_1 then
      { s with lead_last_seen_time_ms := i.now,
               continuous_lead_sightings := s.continuous_lead_sightings + 1 }
    else { s with continuous_lead_sightings := 0 }

/-- The shape of the legacy Follow-mode branch (lines 463-565): it would
produce an updated state, `output_gb`, the brake multiplier (6 on that
path) and the effective `enabled` flag for the hysteresis call.  The
branch sits under a literal `if False:` guard in the source and calls
collaborators outside `src/` (`LongControl.update`, `speed_smoother`), so
it is kept abstract as a parameter; the guard makes it unreachable. -/
def FollowBranch : Type := PCC → PdlIn → PCC × ℚ × ℚ × Bool

/-- `PCCController.update_pdl` (lines 370-618).  Returns the updated
state, the emitted pedal value, the enable bit, and the echoed pedal
index.  `none` models the (unreachable) `ZeroDivisionError` of
`_brake_pedal_min`.  The accel/jerk envelope computed at lines 440-452
feeds only the dead Follow branch (its values are consumed by
`speed_smoother` there), so it has no live effect and is absorbed into
the abstract `fb`. -/
def update_pdl (fb : FollowBranch) (s : PCC) (i : PdlIn) :
    Option (PCC × ℚ × ℚ × ℕ) :=
  let idx := s.pedal_idx
  let s1 := pdl_precycle s i
  if s1.pcc_available = false ∨ i.enabled = false then some (s1, 0, 0, idx)
  else
    let s2 := ingest_radar s1 i
    let r :=
      if False then fb s2 i
      else ({ s2 with v_pid := i.pcm_speed }, i.actuators_gas - i.actuators_brake,
            12, i.enabled)
    let s3 := r.1
    let output_gb := r.2.1
    let mult := r.2.2.1
    let en := r.2.2.2
    let s4 := { s3 with last_output_gb := output_gb }
    let apply_accel := clip output_gb 0 1
    match brake_pedal_min i.cs.v_ego s4.v_pid s4.lead_1 i.cs s4.pedal_speed_kph with
    | none => none
    | some bmin =>
      let apply_brake := -(clip (output_gb * mult) bmin 0)
      let pedal_zero := if 5 * mphToMs ≤ i.cs.v_ego then s4.PedalForZeroTorque else 0
      let tesla_brake := clip ((1 - apply_brake) * pedal_zero) 0 pedal_zero
      let tesla_accel := clip (apply_accel * (100 - pedal_zero)) 0 (100 - pedal_zero)
      let hy := pedal_hysteresis s4 (tesla_brake + tesla_accel) en
      let s5 := hy.1
      let p2 := clip hy.2 (s5.prev_tesla_pedal - 25/2) (s5.prev_tesla_pedal + 5/2)
      let p3 := if s5.enable_pedal_cruise then clip p2 0 100 else 0
      let ep : ℚ := if s5.enable_pedal_cruise then 1 else 0
      some ({ s5 with torqueLevel_last := i.cs.torqueLevel,
                      prev_tesla_pedal := p3 * ep,
                      prev_tesla_accel := apply_accel * ep,
                      prev_v_ego := i.cs.v_ego },
            p3 * ep, ep, idx)

/-- The controller with the legacy Follow branch removed, written from
the spec's words: the normalized request is always
`actuators.gas - actuators.brake` with brake multiplier 12 (the OP
path), and `calc_follow_speed_ms` is never consulted. -/
def update_pdl_noFollow (s : PCC) (i : PdlIn) : Option (PCC × ℚ × ℚ × ℕ) :=
  let idx := s.pedal_idx
  let s1 := pdl_precycle s i
  if s1.pcc_available = false ∨ i.enabled = false then some (s1, 0, 0, idx)
  else
    let s2 := ingest_radar s1 i
    let s3 := { s2 with v_pid := i.pcm_speed }
    let output_gb := i.actuators_gas - i.actuators_brake
    let mult : ℚ := 12
    let en := i.enabled
    let s4 := { s3 with last_output_gb := output_gb }
    let apply_accel := clip output_gb 0 1
    match brake_pedal_min i.cs.v_ego s4.v_pid s4.lead_1 i.cs s4.pedal_speed_kph with
    | none => none
    | some bmin =>
      let apply_brake := -(clip (output_gb * mult) bmin 0)
      let pedal_zero := if 5 * mphToMs ≤ i.cs.v_ego then s4.PedalForZeroTorque else 0
      let tesla_brake := clip ((1 - apply_brake) * pedal_zero) 0 pedal_zero
      let tesla_accel := clip (apply_accel * (100 - pedal_zero)) 0 (100 - pedal_zero)
      let hy := pedal_hysteresis s4 (tesla_brake + tesla_accel) en
      let s5 := hy.1
      let p2 := clip hy.2 (s5.prev_tesla_pedal - 25/2) (s5.prev_tesla_pedal + 5/2)
      let p3 := if s5.enable_pedal_cruise then clip p2 0 100 else 0
      let ep : ℚ := if s5.enable_pedal_cruise then 1 else 0
      some ({ s5 with torqueLevel_last := i.cs.torqueLevel,
                      prev_tesla_pedal := p3 * ep,
                      prev_tesla_accel := apply_accel * ep,
                      prev_v_ego := i.cs.v_ego },
            p3 * ep, ep, idx)

/-! Helper lemmas shared by the claim proofs. -/

lemma brake_pedal_min_isSome (v_ego v_target : ℚ) (lead : Option Lead)
    (cs : CarState) (max_speed_kph : ℚ) :
    (brake_pedal_min v_ego v_target lead cs max_speed_kph).isSome = true := by
  unfold brake_pedal_min
  split_ifs with h1 h2 h3
  · rfl
  · rfl
  · exfalso
    apply h1
    rw [h3]
    norm_num [mphToMs, mphToKph, kphToMs]
  · rfl

lemma follow_core_snd (p : ℚ) (lead : Lead) (cs : CarState) (d a r sf lt : ℚ) :
    (follow_core p lead cs d a r sf lt).2 = r := by
  unfold follow_core
  dsimp only
  split_ifs <;> simp

lemma clip_le_right (x lo hi : ℚ) : clip x lo hi ≤ hi := min_le_right _ _

lemma left_le_clip (x lo hi : ℚ) (h : lo ≤ hi) : lo ≤ clip x lo hi :=
  le_min (le_max_right _ _) h

/-! Concrete fixtures used by witnesses and counterexamples. -/

/-- A benign car state: Tesla radar, metric units, pedal healthy,
override set, at 10 m/s. -/
def csFix : CarState :=
  { brake_pressed := false, cruise_buttons := CruiseBtn.idle,
    imperial_speed_units := false, pcm_acc_status := 0,
    forcePedalOverCC := true, buttonStatus := 1, pedal_interceptor_state := 0,
    pedal_idx := 1, prev_pedal_idx := 0, v_ego := 10, torqueLevel := 0,
    apFollowTimeInS := 1, useTeslaRadar := true, angle_steers := 0,
    turn_signal_blinking := false }

/-- A baseline controller state. -/
def sFix : PCC :=
  { pcc_available := true, prev_pcc_available := true, pedal_timeout_frame := 100,
    enable_pedal_cruise := true, stalk_pull_time_ms := 0,
    prev_stalk_pull_time_ms := -1000, prev_pcm_acc_status := 0,
    prev_cruise_buttons := CruiseBtn.idle, pedal_speed_kph := 100,
    speed_limit_kph := 0, prev_speed_limit_kph := 0, pedal_idx := 0,
    pedal_steady := 20, prev_tesla_accel := 0, prev_tesla_pedal := 20,
    torqueLevel_last := 0, prev_v_ego := 0, PedalForZeroTorque := 18,
    lastTorqueForPedalForZeroTorque := -30, v_pid := 0, last_output_gb := 0,
    last_speed_kph := none, lead_1 := none, lead_last_seen_time_ms := 0,
    continuous_lead_sightings := 0 }

/-- A trivial stand-in for the dead Follow branch, used only to
instantiate the universally quantified branch in concrete runs. -/
def fbFix : FollowBranch := fun s _ => (s, 0, 6, true)

/-! Claim theorems. -/

/-- C10: in `_brake_pedal_min` the division `100*(v_ego - v_target)/v_ego`
is never a division by zero: the early return for `v_ego ≤ 7 mph`
guarantees `v_ego > 0` at the division, so the function is total for
every input and the modelled `ZeroDivisionError` branch is unreachable. -/
theorem brake_pedal_min_total (v_ego v_target : ℚ) (lead : Option Lead)
    (cs : CarState) (max_speed_kph : ℚ) :
    (brake_pedal_min v_ego v_target lead cs max_speed_kph).isSome = true :=
  brake_pedal_min_isSome v_ego v_target lead cs max_speed_kph

/-- C9: the legacy Follow-mode path is dead code: whatever the Follow
branch would compute, `update_pdl` equals the controller with the branch
removed, which uses `output_gb = actuators.gas - actuators.brake` and
brake multiplier 12 (the OP path). -/
theorem update_pdl_follow_dead (fb : FollowBranch) (s : PCC) (i : PdlIn) :
    update_pdl fb s i = update_pdl_noFollow s i := rfl

/-- C2 (amended): `_decel_limit` returns exactly -100 for every lead with
relative distance strictly between 0 and 6 m; a lead at exactly 0 m is
not "present" (`_is_present` requires `dRel > 0`) and instead takes the
no-lead branch. -/
theorem decel_limit_hard_brake (accel_min v_ego : ℚ) (lead : Lead)
    (cs : CarState) (max_speed_kph : ℚ)
    (h1 : 0 < lead.dRel) (h2 : lead.dRel < 6) :
    decel_limit accel_min v_ego (some lead) cs max_speed_kph = -100 := by
  simp [decel_limit, h1, h2]

/-- C2 (witness): a lead 5 m away triggers the -100 hard-brake value. -/
theorem decel_limit_hard_brake_witness :
    decel_limit (-1) 10
      (some { dRel := 5, vRel := 0, aRel := 0, vLeadK := 0, aLeadK := 0,
              status := true }) csFix 100 = -100 :=
  decel_limit_hard_brake (-1) 10 _ csFix 100 (by norm_num) (by norm_num)

/-- C2 (counterexample): with a lead exactly 0 m away, `_decel_limit`
does not return -100: `_is_present` is false at distance 0, so the
no-lead branch returns `accel_min * 0.5 * max_speed_mult` instead (here
`-3/2 * 1/2 * 1 = -3/4`). -/
theorem decel_limit_zero_dist_counterexample :
    decel_limit (-3/2) 10
      (some { dRel := 0, vRel := 0, aRel := 0, vLeadK := 0, aLeadK := 0,
              status := true }) csFix 100 = -3/4 ∧ ¬((-3/4 : ℚ) = -100) := by
  constructor
  · norm_num [decel_limit, msToKph]
  · norm_num

/-- C7 (code bug): `_sec_til_collision` is not floored at 0.1 s: on the
Tesla-radar branch it computes `min(0.1, -4 + dRel/closing)` — an upper
cap, not a floor — so a lead 1 m away closing at 10 m/s yields -3.9 s,
far below the claimed 0.1 s floor (`_decel_limit` even wraps this helper
in `max(0.1, ...)` at line 915, confirming the floor was the intent). -/
theorem sec_til_collision_floor_bug :
    sec_til_collision
      (some { dRel := 1, vRel := -10, aRel := 0, vLeadK := 0, aLeadK := 0,
              status := true }) csFix = -39/10 ∧ ((-39/10 : ℚ) < 1/10) := by
  constructor
  · norm_num [sec_til_collision, csFix]
  · norm_num

/-- C1: hard minimum-distance rule of `calc_follow_speed_ms`: whenever the
(radar-adjusted) lead distance is strictly between 0 and 6 m and the
(jitter-gated) relative speed is below 3 kph, the returned target speed is
0, overriding every prior adjustment in the function. -/
theorem calc_follow_speed_min_dist_zero (s : PCC) (cs : CarState) (alca : Bool)
    (lead : Lead) (hl : s.lead_1 = some lead)
    (hd0 : 0 < (if cs.useTeslaRadar then lead.dRel
                else visual_radar_adjusted_dist_m lead.dRel))
    (hd6 : (if cs.useTeslaRadar then lead.dRel
            else visual_radar_adjusted_dist_m lead.dRel) < 6)
    (hrel : (if 1/2 < |lead.vRel| then lead.vRel else 0) * msToKph < 3) :
    calc_follow_speed_ms s cs alca = some ({ s with last_speed_kph := some 0 }, 0) := by
  have hkey : ∀ x y t : ℚ, (x + 0 * t * y) * msToKph = x * msToKph :=
    fun x y t => by ring
  unfold calc_follow_speed_ms
  rw [hl]
  dsimp only
  by_cases he : s.enable_pedal_cruise = true
  · rw [if_pos he, follow_core_snd, hkey, if_pos ⟨hd6, hd0, hrel⟩]
    simp
  · rw [if_neg he]
    dsimp only
    rw [hkey, if_pos ⟨hd6, hd0, hrel⟩]
    simp

/-- A state whose lead sample sits 5 m ahead with relative speed 1 kph. -/
def sLeadNear : PCC :=
  { sFix with lead_1 := some { dRel := 5, vRel := 5/18, aRel := 0, vLeadK := 0,
                               aLeadK := 0, status := true } }

/-- C1 (witness): at distance 5 m and relative speed 1 kph (= 5/18 m/s,
gated to 0 by the 0.5 m/s jitter filter) the planner returns target 0. -/
theorem calc_follow_speed_min_dist_zero_witness :
    calc_follow_speed_ms sLeadNear csFix false =
      some ({ sLeadNear with last_speed_kph := some 0 }, 0) :=
  calc_follow_speed_min_dist_zero sLeadNear csFix false _ rfl
    (by norm_num [csFix]) (by norm_num [csFix])
    (by split_ifs <;> norm_num [msToKph])

/-! `updatePedalState` only writes the availability bookkeeping; the
engagement and speed fields pass through unchanged. -/

lemma ups_enable (s : PCC) (cs : CarState) (frame : ℕ) :
    (updatePedalState s cs frame).enable_pedal_cruise = s.enable_pedal_cruise := by
  unfold updatePedalState
  dsimp only
  split_ifs <;> rfl

lemma ups_stalk (s : PCC) (cs : CarState) (frame : ℕ) :
    (updatePedalState s cs frame).stalk_pull_time_ms = s.stalk_pull_time_ms := by
  unfold updatePedalState
  dsimp only
  split_ifs <;> rfl

lemma ups_prev_stalk (s : PCC) (cs : CarState) (frame : ℕ) :
    (updatePedalState s cs frame).prev_stalk_pull_time_ms =
      s.prev_stalk_pull_time_ms := by
  unfold updatePedalState
  dsimp only
  split_ifs <;> rfl

lemma ups_prev_btns (s : PCC) (cs : CarState) (frame : ℕ) :
    (updatePedalState s cs frame).prev_cruise_buttons = s.prev_cruise_buttons := by
  unfold updatePedalState
  dsimp only
  split_ifs <;> rfl

lemma ups_pedal_speed (s : PCC) (cs : CarState) (frame : ℕ) :
    (updatePedalState s cs frame).pedal_speed_kph = s.pedal_speed_kph := by
  unfold updatePedalState
  dsimp only
  split_ifs <;> rfl

lemma ups_speed_limit (s : PCC) (cs : CarState) (frame : ℕ) :
    (updatePedalState s cs frame).speed_limit_kph = s.speed_limit_kph := by
  unfold updatePedalState
  dsimp only
  split_ifs <;> rfl

/-- C5: double-pull engagement timing: on a main-stalk press edge while
the pedal path is available, the system is ready and currently disabled,
the cycle enables the system if and only if the elapsed time since the
prior stalk press is strictly below 750 ms, and on enabling the target
speed becomes the maximum of the current speed rounded to the display
unit and the stored speed-limit value. -/
theorem update_stat_double_pull (s : PCC) (cs : CarState) (frame : ℕ) (now : ℤ)
    (ha : (updatePedalState s cs frame).pcc_available = true)
    (he : s.enable_pedal_cruise = false)
    (hm : cs.cruise_buttons = CruiseBtn.main)
    (hp : s.prev_cruise_buttons ≠ CruiseBtn.main)
    (hr : (0 < cs.buttonStatus ∧ cruiseIsOff cs.pcm_acc_status = true) ∨
          cs.forcePedalOverCC = true) :
    ((update_stat s cs frame now).enable_pedal_cruise = true ↔
        now - s.stalk_pull_time_ms < 750) ∧
    (now - s.stalk_pull_time_ms < 750 →
      (update_stat s cs frame now).pedal_speed_kph =
        max ((pyInt (cs.v_ego * msToKph /
                (if cs.imperial_speed_units then mphToKph else 1) + 1/2) : ℚ)
              * (if cs.imperial_speed_units then mphToKph else 1))
          s.speed_limit_kph) := by
  unfold update_stat stalkAndButtons
  by_cases hdp : now - s.stalk_pull_time_ms < 750
  · simp [ha, ups_enable, ups_stalk, ups_prev_stalk, ups_prev_btns,
      ups_pedal_speed, ups_speed_limit, he, hm, hp, hr, hdp]
  · simp [ha, ups_enable, ups_stalk, ups_prev_stalk, ups_prev_btns,
      ups_pedal_speed, ups_speed_limit, he, hm, hp, hdp]

/-! Field-preservation lemmas for the pedal-output path. -/

lemma pcy_avail (s : PCC) (i : PdlIn) :
    (pdl_precycle s i).pcc_available = s.pcc_available := by
  unfold pdl_precycle
  dsimp only
  split_ifs <;> rfl

lemma pcy_steady (s : PCC) (i : PdlIn) :
    (pdl_precycle s i).pedal_steady = s.pedal_steady := by
  unfold pdl_precycle
  dsimp only
  split_ifs <;> rfl

lemma pcy_enable (s : PCC) (i : PdlIn) :
    (pdl_precycle s i).enable_pedal_cruise = s.enable_pedal_cruise := by
  unfold pdl_precycle
  dsimp only
  split_ifs <;> rfl

lemma pcy_prev_pedal (s : PCC) (i : PdlIn) :
    (pdl_precycle s i).prev_tesla_pedal = s.prev_tesla_pedal := by
  unfold pdl_precycle
  dsimp only
  split_ifs <;> rfl

lemma ing_enable (s : PCC) (i : PdlIn) :
    (ingest_radar s i).enable_pedal_cruise = s.enable_pedal_cruise := by
  unfold ingest_radar
  cases i.radSt <;> dsimp only <;> split_ifs <;> rfl

lemma ing_prev_pedal (s : PCC) (i : PdlIn) :
    (ingest_radar s i).prev_tesla_pedal = s.prev_tesla_pedal := by
  unfold ingest_radar
  cases i.radSt <;> dsimp only <;> split_ifs <;> rfl

lemma hy_enable (s : PCC) (p : ℚ) (e : Bool) :
    (pedal_hysteresis s p e).1.enable_pedal_cruise = s.enable_pedal_cruise := by
  unfold pedal_hysteresis
  split_ifs <;> rfl

lemma hy_prev_pedal (s : PCC) (p : ℚ) (e : Bool) :
    (pedal_hysteresis s p e).1.prev_tesla_pedal = s.prev_tesla_pedal := by
  unfold pedal_hysteresis
  split_ifs <;> rfl

/-- A pedal-cycle input with the upstream `enabled` flag cleared; the
other inputs are benign. -/
def iOff : PdlIn :=
  { enabled := false, cs := csFix, frame := 0, actuators_gas := 0,
    actuators_brake := 0, pcm_speed := 0, pcm_override := false,
    speed_limit_ms := 0, set_speed_limit_active := false,
    speed_limit_offset := 0, alca_enabled := false, radSt := none, now := 0 }

/-- The same input with `enabled` set and full throttle requested. -/
def iOn : PdlIn := { iOff with enabled := true, actuators_gas := 1 }

/-- C8 (amended): a cycle on which `update_pdl` returns early — pedal
path unavailable or upstream `enabled` false — leaves `pedal_steady`
unchanged; the force-to-zero branch of `pedal_hysteresis` only runs when
that helper is called with a false `enabled` argument, which the live
path never does. -/
theorem update_pdl_disabled_keeps_steady (fb : FollowBranch) (s : PCC) (i : PdlIn)
    (h : s.pcc_available = false ∨ i.enabled = false) :
    (update_pdl fb s i).map (fun r => r.1.pedal_steady) = some s.pedal_steady := by
  have hc : (pdl_precycle s i).pcc_available = false ∨ i.enabled = false := by
    rcases h with h | h
    · exact Or.inl (by rw [pcy_avail, h])
    · exact Or.inr h
  unfold update_pdl
  dsimp only
  rw [if_pos hc]
  simp [pcy_steady]

/-- C8 (witness): a disabled cycle from the baseline state keeps the
stored steady value. -/
theorem update_pdl_disabled_keeps_steady_witness :
    (update_pdl fbFix sFix iOff).map (fun r => r.1.pedal_steady) =
      some sFix.pedal_steady :=
  update_pdl_disabled_keeps_steady fbFix sFix iOff (Or.inr rfl)

/-- A state left with a non-zero hysteresis steady value. -/
def sSteady : PCC := { sFix with pedal_steady := 30, enable_pedal_cruise := false }

/-- C8 (counterexample): a cycle executed while the system is disabled
does not reset `pedal_steady` to 0: starting from a steady value of 30,
the disabled cycle ends with `pedal_steady = 30 ≠ 0` (the early return at
lines 415-416 skips `pedal_hysteresis` entirely). -/
theorem update_pdl_disabled_steady_counterexample :
    (update_pdl fbFix sSteady iOff).map (fun r => r.1.pedal_steady) = some 30 ∧
    (30 : ℚ) ≠ 0 := by
  constructor
  · have hc : (pdl_precycle sSteady iOff).pcc_available = false ∨
        iOff.enabled = false := Or.inr rfl
    unfold update_pdl
    dsimp only
    rw [if_pos hc]
    simp [pcy_steady, sSteady, sFix]
  · norm_num

lemma clip_clip_bounds (x P : ℚ) (h0 : 0 ≤ P) (h100 : P ≤ 100) :
    P - 25/2 ≤ clip (clip x (P - 25/2) (P + 5/2)) 0 100 ∧
    clip (clip x (P - 25/2) (P + 5/2)) 0 100 ≤ P + 5/2 := by
  unfold clip
  constructor
  · apply le_min
    · exact le_trans (le_min (le_max_right _ _) (by linarith)) (le_max_left _ _)
    · linarith
  · exact le_trans (min_le_left _ _) (max_le (min_le_right _ _) (by linarith))

/-- C3 (amended): on a cycle where the pedal path is available, the
upstream `enabled` flag is set and the internal engagement flag is on,
the emitted pedal value stays within `[prev - 12.5, prev + 2.5]` of the
stored previous output (the per-cycle step is `100·dt/2 = 2.5` up — not
1.25 — and `100·dt/0.4 = 12.5` down), and the emitted value is stored as
the new previous output.  Unavailable or disabled cycles emit 0 with no
slew limiting. -/
theorem update_pdl_slew (fb : FollowBranch) (s : PCC) (i : PdlIn)
    (ha : s.pcc_available = true) (hen : i.enabled = true)
    (hec : s.enable_pedal_cruise = true)
    (h0 : 0 ≤ s.prev_tesla_pedal) (h100 : s.prev_tesla_pedal ≤ 100) :
    ∃ t out, update_pdl fb s i = some (t, out, 1, s.pedal_idx) ∧
      s.prev_tesla_pedal - 25/2 ≤ out ∧ out ≤ s.prev_tesla_pedal + 5/2 ∧
      t.prev_tesla_pedal = out := by
  have hcond : ¬((pdl_precycle s i).pcc_available = false ∨ i.enabled = false) := by
    rw [pcy_avail, ha, hen]
    simp
  unfold update_pdl
  dsimp only
  rw [if_neg hcond]
  simp only [if_false]
  obtain ⟨bmin, hbm⟩ := Option.isSome_iff_exists.mp
    (brake_pedal_min_isSome i.cs.v_ego i.pcm_speed
      (ingest_radar (pdl_precycle s i) i).lead_1 i.cs
      (ingest_radar (pdl_precycle s i) i).pedal_speed_kph)
  rw [hbm]
  dsimp only
  simp only [hy_enable, hy_prev_pedal, ing_enable, ing_prev_pedal, pcy_enable,
    pcy_prev_pedal, hec, if_true, mul_one]
  refine ⟨_, _, rfl, ?_, ?_, rfl⟩
  · exact (clip_clip_bounds _ _ h0 h100).1
  · exact (clip_clip_bounds _ _ h0 h100).2

/-- C3 (witness): from the baseline state (previous output 20) a fully
enabled full-throttle cycle emits a value within `[7.5, 22.5]` and stores
it. -/
theorem update_pdl_slew_witness :
    ∃ t out, update_pdl fbFix sFix iOn = some (t, out, 1, sFix.pedal_idx) ∧
      sFix.prev_tesla_pedal - 25/2 ≤ out ∧ out ≤ sFix.prev_tesla_pedal + 5/2 ∧
      t.prev_tesla_pedal = out :=
  update_pdl_slew fbFix sFix iOn rfl rfl rfl (by norm_num [sFix])
    (by norm_num [sFix])

set_option maxHeartbeats 1000000 in
/-- C3 (counterexample): the slew bound does not relate consecutive
emitted values in every enablement state: an enabled full-throttle cycle
from the baseline state emits 22.5, and the immediately following cycle
with the upstream `enabled` flag cleared emits 0 — a fall of 22.5 units,
exceeding the claimed 12.5 limit (the disabled path returns 0 without
slew limiting). -/
theorem update_pdl_slew_counterexample :
    (update_pdl fbFix sFix iOn).map (fun r => r.2.1) = some (45/2) ∧
    ((update_pdl fbFix sFix iOn).bind (fun r => update_pdl fbFix r.1 iOff)).map
      (fun r => r.2.1) = some 0 ∧
    ¬((45/2 : ℚ) - 0 ≤ 25/2) := by
  refine ⟨?_, ?_, by norm_num⟩
  · norm_num [update_pdl, pdl_precycle, ingest_radar, pedal_hysteresis,
      brake_pedal_min, interp, clip, is_present, safe_distance_m, sFix, csFix,
      iOn, iOff, fbFix, mphToMs, mphToKph, kphToMs, msToKph]
  · norm_num [update_pdl, pdl_precycle, ingest_radar, pedal_hysteresis,
      brake_pedal_min, interp, clip, is_present, safe_distance_m, sFix, csFix,
      iOn, iOff, fbFix, mphToMs, mphToKph, kphToMs, msToKph, Option.bind]

/-- C4 (amended): the brake-pressed disable (a standalone `if`) and the
stalk/button chain are evaluated independently in the same cycle: while
braking with the system enabled, a ready double pull still re-enables the
system — both transition 2 and transition 3 take effect, and the cycle
ends enabled. -/
theorem update_stat_brake_and_double_pull (s : PCC) (cs : CarState) (frame : ℕ)
    (now : ℤ)
    (ha : (updatePedalState s cs frame).pcc_available = true)
    (hb : cs.brake_pressed = true)
    (he : s.enable_pedal_cruise = true)
    (hm : cs.cruise_buttons = CruiseBtn.main)
    (hp : s.prev_cruise_buttons ≠ CruiseBtn.main)
    (hr : (0 < cs.buttonStatus ∧ cruiseIsOff cs.pcm_acc_status = true) ∨
          cs.forcePedalOverCC = true)
    (hdp : now - s.stalk_pull_time_ms < 750) :
    (update_stat s cs frame now).enable_pedal_cruise = true := by
  unfold update_stat stalkAndButtons
  simp [ha, ups_enable, ups_stalk, ups_prev_stalk, ups_prev_btns,
    ups_pedal_speed, ups_speed_limit, hb, he, hm, hp, hr, hdp]

/-- A state with the stalk last pulled 300 ms before `now = 1000000`. -/
def sC4 : PCC := { sFix with stalk_pull_time_ms := 999700 }

/-- A car state pressing the brake and pulling the main stalk at once. -/
def csC4 : CarState :=
  { csFix with cruise_buttons := CruiseBtn.main, brake_pressed := true }

/-- C4 (witness): braking while double-pulling leaves the system enabled. -/
theorem update_stat_brake_and_double_pull_witness :
    (update_stat sC4 csC4 0 1000000).enable_pedal_cruise = true :=
  update_stat_brake_and_double_pull sC4 csC4 0 1000000
    (by simp [updatePedalState, sC4, csC4, sFix, csFix, cruiseIsOff])
    rfl rfl rfl (by decide) (Or.inr rfl) (by decide)

/-- C4 (counterexample): the claim that the brake-pressed disable and a
stalk transition never both take effect is false: with the brake pressed
and the system enabled, a ready double pull in the same cycle ends with
the system enabled (under the claimed first-match-and-stop semantics the
cycle would end disabled). -/
theorem update_stat_single_transition_counterexample :
    csC4.brake_pressed = true ∧ sC4.enable_pedal_cruise = true ∧
    (update_stat sC4 csC4 0 1000000).enable_pedal_cruise = true := by
  refine ⟨rfl, rfl, ?_⟩
  norm_num [update_stat, stalkAndButtons, updatePedalState, sC4, csC4, sFix,
    csFix, cruiseIsOff]
  decide

/-- C6 (amended): only the button-adjustment path of `update_stat` clamps
the target speed: when the button branch (transition 5) runs, the stored
target ends in [0, 270] kph; the double-pull enable path and the
speed-limit-change path write unclamped values. -/
theorem update_stat_button_clip (s : PCC) (cs : CarState) (frame : ℕ) (now : ℤ)
    (ha : (updatePedalState s cs frame).pcc_available = true)
    (hb : cs.brake_pressed = false)
    (he : s.enable_pedal_cruise = true)
    (hm : ¬(cs.cruise_buttons = CruiseBtn.main ∧
            s.prev_cruise_buttons ≠ CruiseBtn.main))
    (hc : cs.cruise_buttons ≠ CruiseBtn.cancel)
    (hne : cs.cruise_buttons ≠ s.prev_cruise_buttons) :
    0 ≤ (update_stat s cs frame now).pedal_speed_kph ∧
    (update_stat s cs frame now).pedal_speed_kph ≤ 270 := by
  unfold update_stat stalkAndButtons
  simp only [ha, ups_enable, ups_stalk, ups_prev_stalk, ups_prev_btns,
    ups_pedal_speed, ups_speed_limit, he, hb, hm, hc, hne, Bool.false_eq_true,
    false_and, if_false, ite_false, if_neg, ne_eq, not_false_eq_true, and_true,
    true_and, if_true, ite_true, Bool.true_eq_false]
  constructor
  · exact left_le_clip _ _ _ (by norm_num)
  · exact clip_le_right _ _ _

/-- A car state pressing the resume (+1) button. -/
def csBtn : CarState := { csFix with cruise_buttons := CruiseBtn.resAccel }

/-- C6 (witness): a +1 button press from the baseline state leaves the
target inside [0, 270]. -/
theorem update_stat_button_clip_witness :
    0 ≤ (update_stat sFix csBtn 0 0).pedal_speed_kph ∧
    (update_stat sFix csBtn 0 0).pedal_speed_kph ≤ 270 :=
  update_stat_button_clip sFix csBtn 0 0
    (by simp [updatePedalState, sFix, csBtn, csFix, cruiseIsOff])
    rfl rfl (by decide) (by decide) (by decide)

/-- A disabled state whose stalk was pulled 300 ms before `now`. -/
def sDblPull : PCC :=
  { sFix with enable_pedal_cruise := false, stalk_pull_time_ms := 999700 }

/-- A car state double-pulling the main stalk at 80 m/s (288 kph). -/
def csFast : CarState :=
  { csFix with cruise_buttons := CruiseBtn.main, v_ego := 80 }

/-- C6 (counterexample): the double-pull enable path does not clamp the
target to [0, 270]: enabling at 80 m/s stores 288 kph. -/
theorem update_stat_target_range_counterexample :
    (update_stat sDblPull csFast 0 1000000).pedal_speed_kph = 288 ∧
    ¬((update_stat sDblPull csFast 0 1000000).pedal_speed_kph ≤ 270) := by
  have h : (update_stat sDblPull csFast 0 1000000).pedal_speed_kph = 288 := by
    norm_num [update_stat, stalkAndButtons, updatePedalState, sDblPull, csFast,
      sFix, csFix, cruiseIsOff, pyInt, msToKph, mphToKph, max_def]
    decide
  refine ⟨h, ?_⟩
  rw [h]
  norm_num

/-- A disabled baseline state (stalk never pulled: timestamp 0). -/
def sIdle : PCC := { sFix with enable_pedal_cruise := false }

/-- A car state pulling the main stalk. -/
def csMain : CarState := { csFix with cruise_buttons := CruiseBtn.main }

/-- C5 (witness): a second pull 749 ms after the first enables the system
and sets the target to the rounded current speed joined with the stored
speed limit. -/
theorem update_stat_double_pull_witness :
    ((update_stat sIdle csMain 0 749).enable_pedal_cruise = true ↔
        (749 : ℤ) - sIdle.stalk_pull_time_ms < 750) ∧
    ((749 : ℤ) - sIdle.stalk_pull_time_ms < 750 →
      (update_stat sIdle csMain 0 749).pedal_speed_kph =
        max ((pyInt (csMain.v_ego * msToKph /
                (if csMain.imperial_speed_units then mphToKph else 1) + 1/2) : ℚ)
              * (if csMain.imperial_speed_units then mphToKph else 1))
          sIdle.speed_limit_kph) :=
  update_stat_double_pull sIdle csMain 0 749
    (by simp [updatePedalState, sIdle, csMain, sFix, csFix, cruiseIsOff])
    rfl rfl (by decide) (Or.inr rfl)
